import Mathlib

/-!
Verification of the Sentinel-3 OLCI L2 TSM processing pipeline
(`s3_process_to_geotiff.py`, `s3_process.py`) against its specification.

Modelling conventions:
* IEEE floating point is embedded symbolically.  Where only the NaN /
  finite distinction matters (raster pixels flowing through resampling,
  clipping and compositing, whose no-data sentinel is NaN), a pixel is
  `Option ℚ` with `none` standing for NaN and `some q` for a finite
  value.  Where the full non-finite structure matters (the reclassify
  step, whose guard is `(data < 0) & ~np.isnan(data)`), values live in
  `FloatVal` with explicit `nan`, `pinf`, `ninf` and finite cases.
* Arrays are lists (row-major lists of rows); machine dtypes are not
  modelled, real arithmetic is exact rational arithmetic.
* File I/O, GDAL handles and netCDF reading are outside the model; each
  pipeline step is embedded as the pure transformation it performs on
  the in-memory arrays and metadata, together with the list of messages
  it prints where error reporting is at stake.
-/

namespace S3

/-- Symbolic IEEE value domain for the reclassify step: NaN, the two
infinities, and finite values as rationals. -/
inductive FloatVal where
  | nan : FloatVal
  | pinf : FloatVal
  | ninf : FloatVal
  | fin : ℚ → FloatVal
deriving DecidableEq, Repr

/-- Embeds `np.isnan` on a single value. -/
def FloatVal.isnan : FloatVal → Bool
  | .nan => true
  | _ => false

/-- Embeds the IEEE comparison `v < 0`: false for NaN (all comparisons
with NaN are false), true for negative infinity, false for positive
infinity, and the rational comparison for finite values. -/
def FloatVal.ltZero : FloatVal → Bool
  | .nan => false
  | .pinf => false
  | .ninf => true
  | .fin q => decide (q < 0)

/-- Per-value action of `np.where((data < 0) & ~np.isnan(data), 0, data)`
from `reclassify_negative_to_zero` (s3_process_to_geotiff.py lines
209-217). -/
def reclassifyVal (v : FloatVal) : FloatVal :=
  if v.ltZero && !v.isnan then .fin 0 else v

/-- Raster metadata as read and copied by rasterio (`src.meta.copy()`):
band dtype, dimensions, CRS, affine geotransform and the no-data
sentinel. -/
structure Meta where
  width : Nat
  height : Nat
  dtype : String
  crs : String
  transform : ℚ × ℚ × ℚ × ℚ × ℚ × ℚ
  nodata : FloatVal
deriving DecidableEq, Repr

/-- A single-band raster: its metadata plus the band array (rows of
pixel values). -/
structure Raster where
  meta : Meta
  data : List (List FloatVal)
deriving DecidableEq, Repr

/-- Embeds `reclassify_negative_to_zero` (s3_process_to_geotiff.py lines
209-217): read band 1 and `meta`, apply
`np.where((data < 0) & ~np.isnan(data), 0, data)` elementwise, and write
the result with the unchanged metadata. -/
def reclassify_negative_to_zero (r : Raster) : Raster :=
  { meta := r.meta
    data := r.data.map (fun row => row.map reclassifyVal) }

/-- The Boolean mask of no-data (NaN) pixels of a raster. -/
def noDataMask (r : Raster) : List (List Bool) :=
  r.data.map (fun row => row.map FloatVal.isnan)

/-- The number of no-data (NaN) pixels of a raster. -/
def countNoData (r : Raster) : Nat :=
  (r.data.map (fun row => (row.filter FloatVal.isnan).length)).sum

/-- Embeds `np.nanmean` along the stack axis at one pixel: the mean of
the non-NaN values, NaN (`none`) when every value is NaN. -/
def nanmean (xs : List (Option ℚ)) : Option ℚ :=
  let vs := xs.filterMap id
  if vs.length = 0 then none else some (vs.sum / vs.length)

/-- A geo-referenced single-band raster used by the compositing step:
affine geotransform, EPSG code of the CRS, and the band array with
`none` as the NaN no-data sentinel. -/
structure GeoRaster where
  transform : ℚ × ℚ × ℚ × ℚ × ℚ × ℚ
  crs : Nat
  data : List (List (Option ℚ))
deriving DecidableEq, Repr

/-- Pixel access with the usual out-of-range default (row `i`,
column `j`). -/
def pix (r : GeoRaster) (i j : Nat) : Option ℚ :=
  (r.data.getD i []).getD j none

/-- Embeds `merge_and_average` (s3_process_to_geotiff.py lines 239-261)
for a group whose members all share one common grid (same transform,
CRS and shape), the situation the spec's REDUCE step requires.  On a
shared grid, `rasterio.merge` of the sources returns that same grid
with the first source's transform, and `reproject` with identical
source and destination transform and CRS is the identity, so the stack
is exactly the member arrays; the result is `np.nanmean` over the stack
axis, with the first member's transform and metadata. -/
def merge_and_average (r0 : GeoRaster) (rest : List GeoRaster) : GeoRaster :=
  { transform := r0.transform
    crs := r0.crs
    data := (List.range r0.data.length).map fun i =>
      (List.range (r0.data.getD i []).length).map fun j =>
        nanmean ((r0 :: rest).map fun r => pix r i j) }

/- ### Basic list lemmas -/

/-- Reading a mapped range at an in-range index. -/
theorem getD_range_map {α : Type} (n : Nat) (f : Nat → α) (d : α) (i : Nat)
    (hi : i < n) : ((List.range n).map f).getD i d = f i := by
  simp [List.getD_eq_getElem?_getD, List.getElem?_range, hi]

/-- Rebuilding a list by indexing over its range. -/
theorem range_map_getD_self {α : Type} (l : List α) (d : α) :
    (List.range l.length).map (fun i => l.getD i d) = l := by
  induction l with
  | nil => simp
  | cons a t ih =>
    rw [List.length_cons, List.range_succ_eq_map, List.map_cons, List.map_map]
    simp only [List.getD_cons_zero, List.getD_cons_succ, Function.comp]
    rw [List.cons_inj_right]
    exact ih

/-- Reading a mapped list at an in-range index. -/
theorem getD_map {α β : Type} (f : α → β) (l : List α) (i : Nat) (d : β)
    (e : α) (hi : i < l.length) : (l.map f).getD i d = f (l.getD i e) := by
  simp [List.getD_eq_getElem?_getD, List.getElem?_map,
    List.getElem?_eq_getElem hi]

/-- The nanmean of a single value is that value. -/
theorem nanmean_singleton (x : Option ℚ) : nanmean [x] = x := by
  cases x with
  | none => simp [nanmean]
  | some q => simp [nanmean]

/- ### Swath to grid (Step 3) -/

/-- Embeds the valid-pixel mask
`np.isfinite(tsm) & np.isfinite(lat) & np.isfinite(lon)` on the three
co-indexed (flattened) swath arrays: the list of pixel triples finite
in all three arrays.  `none` stands for a non-finite entry. -/
def validTriples (tsm lat lon : List (Option ℚ)) : List (ℚ × ℚ × ℚ) :=
  (tsm.zip (lat.zip lon)).filterMap fun p =>
    match p with
    | (some t, some la, some lo) => some (t, la, lo)
    | _ => none

/-- Embeds `np.nanmin`: the minimum of the finite values, NaN (`none`)
when there is none. -/
def nanmin (xs : List (Option ℚ)) : Option ℚ :=
  (xs.filterMap id).min?

/-- Embeds `np.nanmax`: the maximum of the finite values, NaN (`none`)
when there is none. -/
def nanmax (xs : List (Option ℚ)) : Option ℚ :=
  (xs.filterMap id).max?

/-- The number of elements of `np.arange(a, b, s)` for a positive step
`s`: the number of naturals `k` with `a + k * s < b`, i.e.
`max 0 ⌈(b - a) / s⌉`. -/
def arangeLen (a b s : ℚ) : Nat :=
  (⌈(b - a) / s⌉).toNat

/-- The output grid built by `create_geotiff_from_swath`: bounding box
of the area extent, and the column and row counts passed to
`AreaDefinition`. -/
structure GridDef where
  lonMin : ℚ
  latMin : ℚ
  lonMax : ℚ
  latMax : ℚ
  cols : Nat
  rows : Nat
deriving DecidableEq, Repr

/-- Outcome of `create_geotiff_from_swath`: either the early return of
lines 139-141 (no valid pixels), or the grid that the function builds
and writes the resampled GeoTIFF onto. -/
inductive SwathOutcome where
  | skippedNoValidPixels : SwathOutcome
  | written : GridDef → SwathOutcome
deriving DecidableEq, Repr

/-- Embeds the control flow and grid construction of
`create_geotiff_from_swath` (s3_process_to_geotiff.py lines 130-202) on
the flattened swath arrays: if the valid-pixel mask is empty, print
"   No valid pixels" and return (no grid, no output file); otherwise
take the bounding box from `np.nanmin`/`np.nanmax` of the geolocation
arrays, and the column and row counts from `len(np.arange(min, max,
res_deg))`.  The second component collects the messages printed before
returning (the success message about the saved file is not modelled).
The final match arm is unreachable: a nonempty mask forces a finite
value in both geolocation arrays, so every `nanmin`/`nanmax` is
`some`. -/
def create_geotiff_from_swath (tsm lat lon : List (Option ℚ)) (res : ℚ) :
    SwathOutcome × List String :=
  if validTriples tsm lat lon = [] then
    (.skippedNoValidPixels, ["   No valid pixels"])
  else
    match nanmin lat, nanmax lat, nanmin lon, nanmax lon with
    | some latMin, some latMax, some lonMin, some lonMax =>
        (.written
          { lonMin := lonMin, latMin := latMin
            lonMax := lonMax, latMax := latMax
            cols := arangeLen lonMin lonMax res
            rows := arangeLen latMin latMax res }, [])
    | _, _, _, _ => (.skippedNoValidPixels, [])

/- ### Timestamp extraction and grouping (Step 6 / Step 4A) -/

/-- Leftmost run of 8 consecutive digit characters, as found by
`re.search(r"(\d{8})")`. -/
def firstDigits8 : List Char → Option (List Char)
  | [] => none
  | c :: cs =>
    let first8 := (c :: cs).take 8
    if first8.length = 8 && first8.all Char.isDigit then some first8
    else firstDigits8 cs

/-- Embeds `pattern.search(os.path.basename(f))` with
`pattern = re.compile(r"(\d{8})")` on a basename: the leftmost
8-digit token, if any. -/
def extract8 (name : String) : Option String :=
  (firstDigits8 name.toList).map fun l => String.mk l

/-- Embeds `grouped.setdefault(d, []).append(f)`: append `f` to the
group keyed `d`, creating the group at the end when the key is new
(dict insertion order). -/
def insertGroup : List (String × List String) → String → String →
    List (String × List String)
  | [], d, f => [(d, [f])]
  | (k, fs) :: rest, d, f =>
    if k = d then (k, fs ++ [f]) :: rest
    else (k, fs) :: insertGroup rest d f

/-- Body of the Step-6 grouping loop of `main`
(s3_process_to_geotiff.py lines 310-313) on one file: if the basename
has an 8-digit token, insert the file into that token's group;
otherwise do nothing — the loop has no `else` branch and prints
nothing, so the file is dropped without any message. -/
def groupStep (acc : List (String × List String) × List String)
    (f : String) : List (String × List String) × List String :=
  match extract8 f with
  | some d => (insertGroup acc.1 d f, acc.2)
  | none => acc

/-- Embeds the Step-6 grouping loop of `main`
(s3_process_to_geotiff.py lines 306-313) over the basenames of the
clipped GeoTIFFs.  The second component collects the messages printed
by the loop body (there are none). -/
def groupByDate (files : List String) :
    List (String × List String) × List String :=
  files.foldl groupStep ([], [])

/-- A parsed `YYYYMMDDTHHMMSS` timestamp. -/
structure Timestamp where
  year : Nat
  month : Nat
  day : Nat
  hour : Nat
  minute : Nat
  second : Nat
deriving DecidableEq, Repr

/-- Gregorian leap-year rule, as used by `datetime`. -/
def isLeap (y : Nat) : Bool :=
  (y % 4 = 0 && y % 100 ≠ 0) || y % 400 = 0

/-- Days in a month of a given year, as validated by `datetime`. -/
def daysInMonth (y m : Nat) : Nat :=
  if m = 2 then (if isLeap y then 29 else 28)
  else if m = 4 || m = 6 || m = 9 || m = 11 then 30
  else 31

/-- Numeric value of a digit string. -/
def digitsToNat (l : List Char) : Nat :=
  l.foldl (fun n c => 10 * n + (c.toNat - 48)) 0

/-- Embeds `datetime.strptime(part, "%Y%m%dT%H%M%S")`: eight digits, a
literal T, six digits, with calendar-valid month, day, hour, minute and
second; `none` models the `ValueError` on any other input. -/
def parseTimestamp (p : String) : Option Timestamp :=
  let cs := p.toList
  if cs.length = 15 && (cs.take 8).all Char.isDigit &&
      cs.getD 8 ' ' = 'T' && ((cs.drop 9).all Char.isDigit) then
    let y := digitsToNat (cs.take 4)
    let mo := digitsToNat ((cs.drop 4).take 2)
    let d := digitsToNat ((cs.drop 6).take 2)
    let h := digitsToNat ((cs.drop 9).take 2)
    let mi := digitsToNat ((cs.drop 11).take 2)
    let s := digitsToNat ((cs.drop 13).take 2)
    if 1 ≤ mo && mo ≤ 12 && 1 ≤ d && d ≤ daysInMonth y mo &&
        h ≤ 23 && mi ≤ 59 && s ≤ 59 then
      some ⟨y, mo, d, h, mi, s⟩
    else none
  else none

/-- Split a character list at every occurrence of a separator, as
Python `str.split` with an explicit separator. -/
def splitChars (sep : Char) : List Char → List (List Char)
  | [] => [[]]
  | c :: cs =>
    let r := splitChars sep cs
    if c = sep then [] :: r
    else
      match r with
      | [] => [[c]]
      | h :: t => (c :: h) :: t

/-- Embeds `stem.split("_")` on a file stem. -/
def pyParts (stem : String) : List String :=
  (splitChars '_' stem.toList).map fun l => String.mk l

/-- Loop body of `extract_datetime_from_filename` over the
underscore-separated parts of the stem (the candidate test is
`len(part) == 15 and part.startswith("20")`).  The `try` block of the
source wraps the whole `for` loop, so a `ValueError` raised by
`strptime` on a candidate part (15 characters starting with "20" but
not a valid timestamp) escapes the loop and falls through to the
failure message, even if a later part would parse. -/
def extractDTGo (name : String) : List String → Option Timestamp × List String
  | [] => (none, ["Could not extract timestamp from " ++ name])
  | p :: rest =>
    if p.toList.length = 15 && p.toList.take 2 = ['2', '0'] then
      match parseTimestamp p with
      | some t => (some t, [])
      | none => (none, ["Could not extract timestamp from " ++ name])
    else extractDTGo name rest

/-- Embeds `extract_datetime_from_filename` (s3_process.py lines
198-208) on a file stem and display name: scan the underscore-separated
parts for a 15-character part starting with "20" and parse it; on
failure print a message naming the file (the emoji prefix of the
printed message is not modelled) and return `None`.  The second
component is the printed message list. -/
def extract_datetime_from_filename (stem name : String) :
    Option Timestamp × List String :=
  extractDTGo name (pyParts stem)

/- ### Nearest-neighbour resampling (Step 3, pyresample side) -/

/-- Squared distance between two planar points, the distance measure of
the modelled nearest-neighbour search. -/
def distSq (a b : ℚ × ℚ) : ℚ :=
  (a.1 - b.1) ^ 2 + (a.2 - b.2) ^ 2

/-- Modelled from the spec: the nearest-neighbour lookup of pyresample
(`kd_tree.get_neighbour_info` with `neighbours=1` and
`radius_of_influence`), a third-party library whose source is not in
this repository.  Per §4.2: among the swath samples within the search
radius of the query point, return the closest (deterministically: the
earliest of the equidistant ones); `none` when no sample lies within
the radius.  `r2` is the squared radius. -/
def nearestWithin (c : ℚ × ℚ) (r2 : ℚ) :
    List ((ℚ × ℚ) × Option ℚ) → Option ((ℚ × ℚ) × Option ℚ)
  | [] => none
  | s :: rest =>
    match nearestWithin c r2 rest with
    | none => if distSq c s.1 ≤ r2 then some s else none
    | some t =>
      if distSq c s.1 ≤ r2 ∧ distSq c s.1 ≤ distSq c t.1 then some s
      else some t

/-- Modelled from the spec: one output cell of
`kd_tree.get_sample_from_neighbour_info("nn", ..., fill_value=np.nan)`
(§4.2): the measurement value carried by the nearest swath sample
within the radius, `none` (the NaN fill value) when there is none. -/
def resampleCell (c : ℚ × ℚ) (r2 : ℚ)
    (samples : List ((ℚ × ℚ) × Option ℚ)) : Option ℚ :=
  match nearestWithin c r2 samples with
  | none => none
  | some s => s.2

/-- Modelled from the spec: the resampled band over a list of output
cell centers (§4.2). -/
def resample (centers : List (ℚ × ℚ)) (r2 : ℚ)
    (samples : List ((ℚ × ℚ) × Option ℚ)) : List (Option ℚ) :=
  centers.map fun c => resampleCell c r2 samples

/- ### ROI clipping (Step 5) -/

/-- An axis-aligned geographic extent. -/
structure Box where
  lonMin : ℚ
  latMin : ℚ
  lonMax : ℚ
  latMax : ℚ
deriving DecidableEq, Repr

/-- Whether two extents intersect. -/
def boxIntersects (a b : Box) : Bool :=
  a.lonMin ≤ b.lonMax && b.lonMin ≤ a.lonMax &&
  a.latMin ≤ b.latMax && b.latMin ≤ a.latMax

/-- Intersection of two extents (meaningful when they intersect). -/
def boxInter (a b : Box) : Box :=
  { lonMin := max a.lonMin b.lonMin
    latMin := max a.latMin b.latMin
    lonMax := min a.lonMax b.lonMax
    latMax := min a.latMax b.latMax }

/-- The error raised by the clip when the ROI and the raster extent do
not overlap. -/
inductive ClipError where
  | disjoint : ClipError
deriving DecidableEq, Repr

/-- Embeds `clip_geotiff` (s3_process_to_geotiff.py lines 224-232) at
the extent level.  The raster work is done by `raster.rio.clip`, a
third-party call whose source is not in this repository; modelled from
the spec (§4.5): clipping crops to the intersection of the ROI and
raster extents and raises when they do not intersect at all (rioxarray
raises its no-data-in-bounds error there; the model has a single error
value for it). -/
def clip_geotiff (roi r : Box) : Except ClipError Box :=
  if boxIntersects roi r then .ok (boxInter roi r) else .error .disjoint

/-- Embeds the Step-5 loop of `main` (s3_process_to_geotiff.py lines
299-300): `for tif in recl_dir.glob("*.tif"): clip_geotiff(...)`.  The
loop body has no `try`/`except`, so the first exception raised by
`clip_geotiff` propagates out of the loop and aborts the batch; the
remaining files are never clipped. -/
def step5ClipAll (roi : Box) : List Box → Except ClipError (List Box)
  | [] => .ok []
  | t :: rest =>
    match clip_geotiff roi t with
    | .error e => .error e
    | .ok c =>
      match step5ClipAll roi rest with
      | .error e => .error e
      | .ok cs => .ok (c :: cs)

/- ### Reclassify lemmas -/

/-- Reclassifying a value twice is the same as reclassifying it once. -/
theorem reclassifyVal_idem (v : FloatVal) :
    reclassifyVal (reclassifyVal v) = reclassifyVal v := by
  cases v with
  | nan => rfl
  | pinf => rfl
  | ninf => rfl
  | fin q =>
    by_cases h : q < 0 <;>
      simp [reclassifyVal, FloatVal.ltZero, FloatVal.isnan, h]

/-- Reclassification never creates or destroys NaN. -/
theorem isnan_reclassifyVal (v : FloatVal) :
    (reclassifyVal v).isnan = v.isnan := by
  cases v with
  | nan => rfl
  | pinf => rfl
  | ninf => rfl
  | fin q =>
    by_cases h : q < 0 <;>
      simp [reclassifyVal, FloatVal.ltZero, FloatVal.isnan, h]

/- ### Claim theorems -/

/-- C2 counterexample: the claim says every non-finite value is left
unchanged by reclassify, but the guard
`(data < 0) & ~np.isnan(data)` is true at negative infinity, so the
code maps negative infinity to 0, a change. -/
theorem C2_counterexample :
    reclassifyVal FloatVal.ninf = FloatVal.fin 0 ∧
    FloatVal.ninf ≠ FloatVal.fin 0 := by decide

/-- C2 (amended): reclassify applies its per-value rule pixelwise; the
rule maps every finite negative value and also negative infinity to 0,
and leaves NaN, positive infinity and every finite value `v ≥ 0`
unchanged.  It is a pure, total function. -/
theorem C2_reclassify_values (r : Raster) (i j : Nat)
    (hi : i < r.data.length) (hj : j < (r.data.getD i []).length) :
    ((reclassify_negative_to_zero r).data.getD i []).getD j FloatVal.nan
      = reclassifyVal ((r.data.getD i []).getD j FloatVal.nan) ∧
    reclassifyVal FloatVal.nan = FloatVal.nan ∧
    reclassifyVal FloatVal.pinf = FloatVal.pinf ∧
    reclassifyVal FloatVal.ninf = FloatVal.fin 0 ∧
    (∀ q : ℚ, q < 0 → reclassifyVal (FloatVal.fin q) = FloatVal.fin 0) ∧
    (∀ q : ℚ, 0 ≤ q → reclassifyVal (FloatVal.fin q) = FloatVal.fin q) := by
  refine ⟨?_, rfl, rfl, by decide, ?_, ?_⟩
  · simp only [reclassify_negative_to_zero]
    rw [getD_map _ _ _ _ [] hi, getD_map _ _ _ _ FloatVal.nan hj]
  · intro q h
    simp [reclassifyVal, FloatVal.ltZero, FloatVal.isnan, h]
  · intro q h
    simp [reclassifyVal, FloatVal.ltZero, FloatVal.isnan, not_lt.2 h]

/-- C2 witness: a 1×1 raster holding negative infinity reclassifies to
a raster holding 0 at that pixel. -/
theorem C2_reclassify_values_witness :
    ((reclassify_negative_to_zero
        { meta := { width := 1, height := 1, dtype := "float32",
                    crs := "EPSG:4326", transform := (0, 1, 0, 0, 0, 1),
                    nodata := FloatVal.nan },
          data := [[FloatVal.ninf]] }).data.getD 0 []).getD 0 FloatVal.nan
      = FloatVal.fin 0 := by
  have h := C2_reclassify_values
      { meta := { width := 1, height := 1, dtype := "float32",
                  crs := "EPSG:4326", transform := (0, 1, 0, 0, 0, 1),
                  nodata := FloatVal.nan },
        data := [[FloatVal.ninf]] } 0 0 (by decide) (by decide)
  rw [h.1]
  decide

/-- C8: reclassify is idempotent, and it changes neither the Boolean
mask of no-data (NaN) pixel locations nor the no-data pixel count. -/
theorem C8_reclassify_idempotent (r : Raster) :
    reclassify_negative_to_zero (reclassify_negative_to_zero r)
      = reclassify_negative_to_zero r ∧
    noDataMask (reclassify_negative_to_zero r) = noDataMask r ∧
    countNoData (reclassify_negative_to_zero r) = countNoData r := by
  refine ⟨?_, ?_, ?_⟩
  · simp [reclassify_negative_to_zero, List.map_map, Function.comp,
      reclassifyVal_idem]
  · simp [reclassify_negative_to_zero, noDataMask, List.map_map,
      Function.comp, isnan_reclassifyVal]
  · have hrow : ∀ row : List FloatVal,
        ((row.map reclassifyVal).filter FloatVal.isnan).length
          = (row.filter FloatVal.isnan).length := by
      intro row
      simp [List.filter_map, Function.comp_def, isnan_reclassifyVal]
    simp [reclassify_negative_to_zero, countNoData, List.map_map,
      Function.comp_def, hrow]

/-- C10: reclassify copies the raster metadata unchanged — width,
height, dtype, CRS, geotransform and no-data sentinel of the output are
exactly those of the input; only the band values change. -/
theorem C10_reclassify_preserves_meta (r : Raster) :
    (reclassify_negative_to_zero r).meta.width = r.meta.width ∧
    (reclassify_negative_to_zero r).meta.height = r.meta.height ∧
    (reclassify_negative_to_zero r).meta.dtype = r.meta.dtype ∧
    (reclassify_negative_to_zero r).meta.crs = r.meta.crs ∧
    (reclassify_negative_to_zero r).meta.transform = r.meta.transform ∧
    (reclassify_negative_to_zero r).meta.nodata = r.meta.nodata ∧
    (reclassify_negative_to_zero r).meta = r.meta :=
  ⟨rfl, rfl, rfl, rfl, rfl, rfl, rfl⟩

/-- C9: a composite group of size 1 reduces to the single member
unchanged — values, grid and transform are the member's. -/
theorem C9_single_member_identity (r : GeoRaster) :
    merge_and_average r [] = r := by
  cases r with
  | mk t c dta =>
    simp only [merge_and_average, pix, List.map_cons, List.map_nil,
      nanmean_singleton]
    congr 1
    simp only [range_map_getD_self]

/-- C1: for a group of rasters sharing a common grid, the composite
produced by merge-and-average is, at each in-range pixel, the
arithmetic mean of the non-no-data member values there, and no-data
where every member is no-data. -/
theorem C1_composite_mean (r0 : GeoRaster) (rest : List GeoRaster)
    (i j : Nat)
    (_hgrid : ∀ r ∈ rest, r.transform = r0.transform ∧ r.crs = r0.crs ∧
      r.data.map List.length = r0.data.map List.length)
    (hi : i < r0.data.length) (hj : j < (r0.data.getD i []).length) :
    (((r0 :: rest).map fun r => pix r i j).filterMap id = [] →
      pix (merge_and_average r0 rest) i j = none) ∧
    ∀ vs : List ℚ, ((r0 :: rest).map fun r => pix r i j).filterMap id = vs →
      vs ≠ [] →
      pix (merge_and_average r0 rest) i j = some (vs.sum / vs.length) := by
  have hpix : pix (merge_and_average r0 rest) i j
      = nanmean ((r0 :: rest).map fun r => pix r i j) := by
    simp only [merge_and_average, pix]
    rw [getD_range_map _ _ _ _ hi, getD_range_map _ _ _ _ hj]
  constructor
  · intro h
    rw [hpix]
    simp only [nanmean]
    rw [h]
    simp
  · intro vs hvs hne
    rw [hpix]
    simp only [nanmean]
    have hlen : ¬ vs.length = 0 := by
      simpa [List.length_eq_zero] using hne
    rw [hvs, if_neg hlen]

/-- C1 witness: two same-day single-row rasters with values
`[10, NaN]` and `[NaN, 20]` on the same grid composite to `[10, 20]`. -/
theorem C1_composite_mean_witness :
    pix (merge_and_average
      { transform := (0, 1, 0, 0, 0, 1), crs := 4326,
        data := [[some 10, none]] }
      [{ transform := (0, 1, 0, 0, 0, 1), crs := 4326,
         data := [[none, some 20]] }]) 0 0 = some 10 ∧
    pix (merge_and_average
      { transform := (0, 1, 0, 0, 0, 1), crs := 4326,
        data := [[some 10, none]] }
      [{ transform := (0, 1, 0, 0, 0, 1), crs := 4326,
         data := [[none, some 20]] }]) 0 1 = some 20 := by
  constructor
  · have h := C1_composite_mean
      { transform := (0, 1, 0, 0, 0, 1), crs := 4326,
        data := [[some 10, none]] }
      [{ transform := (0, 1, 0, 0, 0, 1), crs := 4326,
         data := [[none, some 20]] }] 0 0
      (by decide) (by decide) (by decide)
    simpa using h.2 [10] (by decide) (by decide)
  · have h := C1_composite_mean
      { transform := (0, 1, 0, 0, 0, 1), crs := 4326,
        data := [[some 10, none]] }
      [{ transform := (0, 1, 0, 0, 0, 1), crs := 4326,
         data := [[none, some 20]] }] 0 1
      (by decide) (by decide) (by decide)
    simpa using h.2 [20] (by decide) (by decide)

/-- Field equations of the grid built by `create_geotiff_from_swath`
when it reaches the write stage. -/
theorem create_geotiff_written_eqs (tsm lat lon : List (Option ℚ))
    (res : ℚ) (g : GridDef)
    (h : (create_geotiff_from_swath tsm lat lon res).1
      = SwathOutcome.written g) :
    nanmin lat = some g.latMin ∧ nanmax lat = some g.latMax ∧
    nanmin lon = some g.lonMin ∧ nanmax lon = some g.lonMax ∧
    g.cols = arangeLen g.lonMin g.lonMax res ∧
    g.rows = arangeLen g.latMin g.latMax res := by
  unfold create_geotiff_from_swath at h
  split at h
  · simp at h
  · split at h
    · simp only [SwathOutcome.written.injEq] at h
      subst h
      refine ⟨?_, ?_, ?_, ?_, rfl, rfl⟩ <;> assumption
    · simp at h

/-- Concrete grid evaluation: the swath with measurements `[1, 2]` at
latitudes `[0, 1]` and longitudes `[0, 1]`, at cell size `2/5`, yields
a 3×3 grid on the box `[0,1] × [0,1]`. -/
theorem grid_of_two_pixel_swath :
    (create_geotiff_from_swath [some 1, some 2] [some 0, some 1]
        [some 0, some 1] (2/5)).1
      = SwathOutcome.written
          { lonMin := 0, latMin := 0, lonMax := 1, latMax := 1,
            cols := 3, rows := 3 } := by
  have e1 : nanmin [some (0:ℚ), some 1] = some 0 := by decide
  have e2 : nanmax [some (0:ℚ), some 1] = some 1 := by decide
  have hc : arangeLen 0 1 (2/5) = 3 := by
    unfold arangeLen
    have h : ⌈((1:ℚ) - 0) / (2/5)⌉ = 3 := by norm_num [Int.ceil_eq_iff]
    rw [h]
    rfl
  unfold create_geotiff_from_swath
  rw [if_neg (by decide)]
  simp only [e1, e2, hc]

/-- Concrete grid evaluation: on a swath whose first pixel has finite
geolocation but non-finite measurement, the grid box still starts at
that pixel's coordinates. -/
theorem grid_of_half_valid_swath :
    (create_geotiff_from_swath [none, some 5] [some 0, some 10]
        [some 0, some 10] 1).1
      = SwathOutcome.written
          { lonMin := 0, latMin := 0, lonMax := 10, latMax := 10,
            cols := 10, rows := 10 } := by
  have e1 : nanmin [some (0:ℚ), some 10] = some 0 := by decide
  have e2 : nanmax [some (0:ℚ), some 10] = some 10 := by decide
  have hc : arangeLen 0 10 1 = 10 := by
    unfold arangeLen
    have h : ⌈((10:ℚ) - 0) / 1⌉ = 10 := by norm_num [Int.ceil_eq_iff]
    rw [h]
    rfl
  unfold create_geotiff_from_swath
  rw [if_neg (by decide)]
  simp only [e1, e2, hc]

/-- C3 counterexample: on the swath with measurements `[1, 2]` at
latitudes `[0, 1]` and longitudes `[0, 1]` and cell size `2/5`, the
column count is `⌈(1-0)/(2/5)⌉ = 3`, not `⌊(1-0)/(2/5)⌋ = 2` as the
claim states; and on a swath whose first pixel has finite geolocation
but non-finite measurement, the grid's bounding box starts at longitude
and latitude 0 although the only valid pixel sits at longitude and
latitude 10, so the box is not that of the valid pixels. -/
theorem C3_counterexample :
    (create_geotiff_from_swath [some 1, some 2] [some 0, some 1]
        [some 0, some 1] (2/5)).1
      = SwathOutcome.written
          { lonMin := 0, latMin := 0, lonMax := 1, latMax := 1,
            cols := 3, rows := 3 } ∧
    (⌊((1 : ℚ) - 0) / (2/5)⌋ = 2) ∧
    (create_geotiff_from_swath [none, some 5] [some 0, some 10]
        [some 0, some 10] 1).1
      = SwathOutcome.written
          { lonMin := 0, latMin := 0, lonMax := 10, latMax := 10,
            cols := 10, rows := 10 } ∧
    (validTriples [none, some 5] [some 0, some 10] [some 0, some 10]).map
        (fun p => p.2.2) = [10] := by
  refine ⟨grid_of_two_pixel_swath, ?_, grid_of_half_valid_swath, by decide⟩
  norm_num [Int.floor_eq_iff]

/-- C3 (amended): the grid's bounding box equals the
`nanmin`/`nanmax` range of each geolocation array over all its finite
entries (not restricted to pixels valid in all three arrays), the
column and row counts equal `ceil((max-min)/cell_size_deg)` (as §3 of
the spec states), and each count is at least 1 whenever the
corresponding extent is nonempty (`min < max`). -/
theorem C3_grid_amended (tsm lat lon : List (Option ℚ)) (res : ℚ)
    (g : GridDef) (hres : 0 < res)
    (h : (create_geotiff_from_swath tsm lat lon res).1
      = SwathOutcome.written g) :
    nanmin lat = some g.latMin ∧ nanmax lat = some g.latMax ∧
    nanmin lon = some g.lonMin ∧ nanmax lon = some g.lonMax ∧
    g.cols = (⌈(g.lonMax - g.lonMin) / res⌉).toNat ∧
    g.rows = (⌈(g.latMax - g.latMin) / res⌉).toNat ∧
    (g.lonMin < g.lonMax → 1 ≤ g.cols) ∧
    (g.latMin < g.latMax → 1 ≤ g.rows) := by
  obtain ⟨h1, h2, h3, h4, h5, h6⟩ :=
    create_geotiff_written_eqs tsm lat lon res g h
  refine ⟨h1, h2, h3, h4, h5, h6, ?_, ?_⟩
  · intro hlt
    rw [h5]
    unfold arangeLen
    have hpos : (0 : ℚ) < (g.lonMax - g.lonMin) / res :=
      div_pos (by linarith) hres
    have hceil : 0 < ⌈(g.lonMax - g.lonMin) / res⌉ := Int.ceil_pos.mpr hpos
    omega
  · intro hlt
    rw [h6]
    unfold arangeLen
    have hpos : (0 : ℚ) < (g.latMax - g.latMin) / res :=
      div_pos (by linarith) hres
    have hceil : 0 < ⌈(g.latMax - g.latMin) / res⌉ := Int.ceil_pos.mpr hpos
    omega

/-- C3 witness: the amended grid facts at the concrete two-pixel
swath with cell size `2/5`. -/
theorem C3_grid_amended_witness :
    nanmin [some (0 : ℚ), some 1] = some (0 : ℚ) ∧ 1 ≤ (3 : Nat) := by
  have h := C3_grid_amended [some 1, some 2] [some 0, some 1]
      [some 0, some 1] (2/5)
      { lonMin := 0, latMin := 0, lonMax := 1, latMax := 1,
        cols := 3, rows := 3 }
      (by norm_num) grid_of_two_pixel_swath
  exact ⟨h.1, h.2.2.2.2.2.2.1 (by norm_num)⟩

/-- C5 counterexample: on a swath with no valid pixel triple,
`create_geotiff_from_swath` does not raise any exception — there is no
`EmptySwathError` anywhere in the code; it prints "   No valid pixels"
and returns normally without building a grid. -/
theorem C5_counterexample :
    create_geotiff_from_swath [none] [some 0] [some 0] 1
      = (SwathOutcome.skippedNoValidPixels, ["   No valid pixels"]) := by
  decide

/-- C5 (amended): when no pixel is simultaneously finite in the
measurement and both geolocation arrays, `create_geotiff_from_swath`
logs "   No valid pixels" and returns early, producing no grid and no
output (so no degenerate grid, and the main loop proceeds to the next
product); the skip is a plain logged return, not an `EmptySwathError`
exception, which does not exist in the code.  Conversely a grid is only
ever written for a swath with at least one valid pixel. -/
theorem C5_empty_swath_amended (tsm lat lon : List (Option ℚ)) (res : ℚ) :
    (validTriples tsm lat lon = [] →
      create_geotiff_from_swath tsm lat lon res
        = (SwathOutcome.skippedNoValidPixels, ["   No valid pixels"])) ∧
    (∀ g : GridDef,
      (create_geotiff_from_swath tsm lat lon res).1
        = SwathOutcome.written g →
      validTriples tsm lat lon ≠ []) := by
  constructor
  · intro h
    simp [create_geotiff_from_swath, h]
  · intro g hg he
    simp [create_geotiff_from_swath, he] at hg

/-- C5 witness: a two-pixel swath in which every pixel is non-finite in
some array takes the logged early return. -/
theorem C5_empty_swath_amended_witness :
    create_geotiff_from_swath [none, some 3] [some 1, none]
        [some 0, some 2] 1
      = (SwathOutcome.skippedNoValidPixels, ["   No valid pixels"]) :=
  (C5_empty_swath_amended [none, some 3] [some 1, none]
    [some 0, some 2] 1).1 (by decide)

/-- Every member of a group after an insertion is either carried over
from a group with the same key or is the newly inserted file under its
own key. -/
theorem insertGroup_mem (gs : List (String × List String)) (d f : String)
    (p : String × List String) (hp : p ∈ insertGroup gs d f)
    (x : String) (hx : x ∈ p.2) :
    (∃ q ∈ gs, q.1 = p.1 ∧ x ∈ q.2) ∨ (x = f ∧ p.1 = d) := by
  induction gs with
  | nil =>
    simp only [insertGroup, List.mem_singleton] at hp
    subst hp
    simp only [List.mem_singleton] at hx
    exact Or.inr ⟨hx, rfl⟩
  | cons g rest ih =>
    obtain ⟨k, fs⟩ := g
    simp only [insertGroup] at hp
    by_cases hk : k = d
    · rw [if_pos hk] at hp
      rcases List.mem_cons.mp hp with hphead | hptail
      · subst hphead
        rcases List.mem_append.mp hx with hxfs | hxf
        · exact Or.inl ⟨(k, fs), List.mem_cons_self _ _, rfl, hxfs⟩
        · simp only [List.mem_singleton] at hxf
          exact Or.inr ⟨hxf, hk⟩
      · exact Or.inl ⟨p, List.mem_cons_of_mem _ hptail, rfl, hx⟩
    · rw [if_neg hk] at hp
      rcases List.mem_cons.mp hp with hphead | hptail
      · subst hphead
        exact Or.inl ⟨(k, fs), List.mem_cons_self _ _, rfl, hx⟩
      · rcases ih hptail with ⟨q, hq, hq1, hqx⟩ | hin
        · exact Or.inl ⟨q, List.mem_cons_of_mem _ hq, hq1, hqx⟩
        · exact Or.inr hin

/-- Invariant of the grouping fold: every file placed in a group
carries the group's key as its extracted token, and the loop prints
nothing. -/
theorem foldl_groupStep_inv (files : List String) :
    ∀ acc : List (String × List String) × List String,
      (∀ p ∈ acc.1, ∀ x ∈ p.2, extract8 x = some p.1) →
      (∀ p ∈ (files.foldl groupStep acc).1, ∀ x ∈ p.2,
        extract8 x = some p.1) ∧
      (files.foldl groupStep acc).2 = acc.2 := by
  induction files with
  | nil =>
    intro acc h
    exact ⟨h, rfl⟩
  | cons f rest ih =>
    intro acc h
    rw [List.foldl_cons]
    have hstep : ∀ p ∈ (groupStep acc f).1, ∀ x ∈ p.2,
        extract8 x = some p.1 := by
      intro p hp x hx
      unfold groupStep at hp
      cases hf : extract8 f with
      | none =>
        rw [hf] at hp
        exact h p hp x hx
      | some d =>
        rw [hf] at hp
        rcases insertGroup_mem acc.1 d f p hp x hx with
          ⟨q, hq, hq1, hqx⟩ | ⟨hxf, hpd⟩
        · rw [← hq1]
          exact h q hq x hqx
        · rw [hxf, hpd]
          exact hf
    have hsnd : (groupStep acc f).2 = acc.2 := by
      unfold groupStep
      cases hf : extract8 f <;> rfl
    obtain ⟨h1, h2⟩ := ih (groupStep acc f) hstep
    exact ⟨h1, h2.trans hsnd⟩

/-- When `extract_datetime_from_filename` fails, it prints the failure
message naming the file. -/
theorem extractDTGo_none (name : String) (parts : List String)
    (h : (extractDTGo name parts).1 = none) :
    (extractDTGo name parts).2
      = ["Could not extract timestamp from " ++ name] := by
  induction parts with
  | nil => rfl
  | cons p rest ih =>
    unfold extractDTGo at h ⊢
    by_cases hc : (p.toList.length = 15 && p.toList.take 2 = ['2', '0'])
        = true
    · rw [if_pos hc] at h ⊢
      cases hp : parseTimestamp p with
      | some t =>
        rw [hp] at h
        simp at h
      | none => rfl
    · rw [if_neg hc] at h ⊢
      exact ih h

/-- C6 counterexample: in the geotiff pipeline's Step-6 grouping, a
file whose basename has no 8-digit token is excluded from every group
and the loop prints nothing at all — the exclusion is silent, not
reported, and no TimestampExtractionError exists. -/
theorem C6_counterexample :
    groupByDate ["TSM_nodate.tif", "TSM_S3A_20180105T093000_x.tif"]
      = ([("20180105", ["TSM_S3A_20180105T093000_x.tif"])], []) ∧
    extract8 "TSM_nodate.tif" = none ∧
    (∀ p ∈ ([("20180105", ["TSM_S3A_20180105T093000_x.tif"])] :
        List (String × List String)), "TSM_nodate.tif" ∉ p.2) := by
  refine ⟨by decide, by decide, by decide⟩

/-- C6 (amended): in both pipelines a file with no extractable token is
excluded from temporal grouping, but only `s3_process.py` reports it.
In `s3_process_to_geotiff.py` the Step-6 loop places a file in a group
only when its basename yields an 8-digit token and prints no message,
so token-less files are silently dropped; in `s3_process.py`,
`extract_datetime_from_filename` prints an explicit could-not-extract
message naming the file whenever it returns `None` (no exception type
exists in either). -/
theorem C6_grouping_amended (files : List String) (stem name : String)
    (hdt : (extract_datetime_from_filename stem name).1 = none) :
    (groupByDate files).2 = [] ∧
    (∀ p ∈ (groupByDate files).1, ∀ f ∈ p.2, extract8 f = some p.1) ∧
    (extract_datetime_from_filename stem name).2
      = ["Could not extract timestamp from " ++ name] := by
  obtain ⟨h1, h2⟩ := foldl_groupStep_inv files ([], []) (by simp)
  exact ⟨h2, h1, extractDTGo_none name (pyParts stem) hdt⟩

/-- C6 witness: the amended behaviour at a concrete token-less file. -/
theorem C6_grouping_amended_witness :
    (groupByDate ["TSM_nodate.tif"]).2 = [] ∧
    (extract_datetime_from_filename "TSM_nodate" "TSM_nodate.tif").2
      = ["Could not extract timestamp from " ++ "TSM_nodate.tif"] := by
  have h := C6_grouping_amended ["TSM_nodate.tif"] "TSM_nodate"
      "TSM_nodate.tif" (by decide)
  exact ⟨h.1, h.2.2⟩

/-- C7 counterexample: with an ROI at `[0,1]×[0,1]`, two rasters to
clip of which the first (`[10,12]×[10,12]`) is disjoint from the ROI
and the second (`[0,2]×[0,2]`) overlaps it, the Step-5 loop aborts with
the disjoint error — it does not skip the first raster and continue,
although clipping the second alone would have succeeded. -/
theorem C7_counterexample :
    step5ClipAll { lonMin := 0, latMin := 0, lonMax := 1, latMax := 1 }
        [{ lonMin := 10, latMin := 10, lonMax := 12, latMax := 12 },
         { lonMin := 0, latMin := 0, lonMax := 2, latMax := 2 }]
      = Except.error ClipError.disjoint ∧
    clip_geotiff { lonMin := 0, latMin := 0, lonMax := 1, latMax := 1 }
        { lonMin := 0, latMin := 0, lonMax := 2, latMax := 2 }
      = Except.ok { lonMin := 0, latMin := 0, lonMax := 1, latMax := 1 } := by
  constructor
  · rfl
  · rfl

/-- C7 (amended): when the ROI does not intersect a raster's extent,
the clip raises the library's no-overlap error (modelled as the
disjoint error), and because the Step-5 loop of `main` has no
`try`/`except`, the error aborts the whole batch: `step5ClipAll`
returns the error and produces no output list, so the remaining
products are not clipped and the run does not continue. -/
theorem C7_clip_amended (roi : Box) (tifs : List Box) (r : Box)
    (hr : r ∈ tifs) (hdisj : boxIntersects roi r = false) :
    clip_geotiff roi r = Except.error ClipError.disjoint ∧
    step5ClipAll roi tifs = Except.error ClipError.disjoint := by
  have hclip : clip_geotiff roi r = Except.error ClipError.disjoint := by
    simp [clip_geotiff, hdisj]
  refine ⟨hclip, ?_⟩
  have hstep : ∀ ts : List Box, r ∈ ts →
      step5ClipAll roi ts = Except.error ClipError.disjoint := by
    intro ts
    induction ts with
    | nil =>
      intro h0
      cases h0
    | cons t rest ih =>
      intro h0
      rcases List.mem_cons.mp h0 with h1 | htail
      · unfold step5ClipAll
        rw [← h1, hclip]
      · unfold step5ClipAll
        cases hct : clip_geotiff roi t with
        | error e =>
          cases e
          rfl
        | ok c =>
          rw [ih htail]
  exact hstep tifs hr

/-- C7 witness: the amended behaviour at concrete extents. -/
theorem C7_clip_amended_witness :
    clip_geotiff { lonMin := 0, latMin := 0, lonMax := 1, latMax := 1 }
        { lonMin := 10, latMin := 10, lonMax := 12, latMax := 12 }
      = Except.error ClipError.disjoint ∧
    step5ClipAll { lonMin := 0, latMin := 0, lonMax := 1, latMax := 1 }
        [{ lonMin := 10, latMin := 10, lonMax := 12, latMax := 12 },
         { lonMin := 0, latMin := 0, lonMax := 2, latMax := 2 }]
      = Except.error ClipError.disjoint :=
  C7_clip_amended
    { lonMin := 0, latMin := 0, lonMax := 1, latMax := 1 }
    [{ lonMin := 10, latMin := 10, lonMax := 12, latMax := 12 },
     { lonMin := 0, latMin := 0, lonMax := 2, latMax := 2 }]
    { lonMin := 10, latMin := 10, lonMax := 12, latMax := 12 }
    (List.mem_cons_self _ _) (by decide)

/-- The nearest sample returned by the bounded search is one of the
samples and lies within the radius. -/
theorem nearestWithin_mem (c : ℚ × ℚ) (r2 : ℚ)
    (samples : List ((ℚ × ℚ) × Option ℚ)) (t : (ℚ × ℚ) × Option ℚ)
    (h : nearestWithin c r2 samples = some t) :
    t ∈ samples ∧ distSq c t.1 ≤ r2 := by
  induction samples generalizing t with
  | nil => simp [nearestWithin] at h
  | cons s rest ih =>
    unfold nearestWithin at h
    cases hrec : nearestWithin c r2 rest with
    | none =>
      rw [hrec] at h
      by_cases hd : distSq c s.1 ≤ r2
      · rw [if_pos hd] at h
        injection h with h1
        subst h1
        exact ⟨List.mem_cons_self _ _, hd⟩
      · rw [if_neg hd] at h
        simp at h
    | some u =>
      rw [hrec] at h
      dsimp only at h
      obtain ⟨humem, hud⟩ := ih u hrec
      by_cases hd : distSq c s.1 ≤ r2 ∧ distSq c s.1 ≤ distSq c u.1
      · rw [if_pos hd] at h
        injection h with h1
        subst h1
        exact ⟨List.mem_cons_self _ _, hd.1⟩
      · rw [if_neg hd] at h
        injection h with h1
        subst h1
        exact ⟨List.mem_cons_of_mem _ humem, hud⟩

/-- C4: every non-no-data cell of the resampled output equals the
measurement value of some input sample lying within the search radius
of that cell's center — values are exact copies, never interpolated or
blended. -/
theorem C4_resample_copies (centers : List (ℚ × ℚ)) (r2 : ℚ)
    (samples : List ((ℚ × ℚ) × Option ℚ)) (i : Nat) (v : ℚ)
    (h : (resample centers r2 samples).getD i none = some v) :
    ∃ s ∈ samples, distSq (centers.getD i (0, 0)) s.1 ≤ r2 ∧
      s.2 = some v := by
  rcases Nat.lt_or_ge i centers.length with hi | hge
  · rw [resample, getD_map _ _ _ _ (0, 0) hi] at h
    unfold resampleCell at h
    cases hn : nearestWithin (centers.getD i (0, 0)) r2 samples with
    | none =>
      rw [hn] at h
      simp at h
    | some s =>
      rw [hn] at h
      obtain ⟨hmem, hd⟩ :=
        nearestWithin_mem (centers.getD i (0, 0)) r2 samples s hn
      exact ⟨s, hmem, hd, h⟩
  · exfalso
    have hlen : (resample centers r2 samples).length ≤ i := by
      simpa [resample] using hge
    have hnone : (resample centers r2 samples).getD i none = none := by
      rw [List.getD_eq_getElem?_getD, List.getElem?_eq_none hlen]
      rfl
    rw [hnone] at h
    cases h

/-- C4 witness: a single cell at the origin with a single sample at the
origin carrying value 7 resamples to 7, a copy of that sample. -/
theorem C4_resample_copies_witness :
    (resample [((0 : ℚ), (0 : ℚ))] 1
        [(((0 : ℚ), (0 : ℚ)), some (7 : ℚ))]).getD 0 none = some 7 ∧
    ∃ s ∈ [(((0 : ℚ), (0 : ℚ)), some (7 : ℚ))],
      distSq (([((0 : ℚ), (0 : ℚ))]).getD 0 (0, 0)) s.1 ≤ 1 ∧
      s.2 = some 7 := by
  have hval : (resample [((0 : ℚ), (0 : ℚ))] 1
      [(((0 : ℚ), (0 : ℚ)), some (7 : ℚ))]).getD 0 none = some 7 := by
    simp [resample, resampleCell, nearestWithin, distSq]
  exact ⟨hval, C4_resample_copies _ _ _ 0 7 hval⟩

end S3
